import Mathlib

/-!
Verification of the record store and remote-sync subsystem of the
promotion sign-up service (repository `241-promotiondata`).

The JavaScript sources are shallowly embedded: rows and worksheets become
Lean structures over `String`, the `eachRow` scans become structural
recursions over lists, the retry/backoff loops become fuel-indexed
recursions parameterised by the outcome of each attempt, and file-system
effects (temp-file writes, renames, in-place writes) become explicit
small-step transformers on a file-system record so that interruption can
be expressed as running a prefix of the steps.

Sources embedded (by revision):
- `src/server.js`, first revision  : `normalize`, `checkDuplicates`,
  `saveWorkbook` (temp-file + rename).
- `src/server.js`, second revision : `validateWorkbook`,
  `extractExistingData`, `loadLocalExcel`, `downloadFromGoogleDrive`,
  `uploadToGoogleDrive`, the `/submit` validation + duplicate check and
  the `/delete` handler.
- `src/unnamed/part_000` : the short-circuiting `checkDuplicates`.
- `src/unnamed/part_001` : `uploadToGoogleDrive` (backoff `1000 * retries`).
- `src/unnamed/part_002` : `initializeExcel`, `validateWorkbook`,
  `extractExistingData`, `extractExistingFeedbackData`,
  `downloadFromGoogleDrive(forceSync)`, `uploadToGoogleDrive`
  (fixed 5000 ms delay), `startGoogleDriveSync`, the `/submit`
  validation, direct write loop and upload fallback.
-/

namespace Promo

/-! ## String primitives

JavaScript string operations used by the sources, modelled over ASCII
whitespace (the characters matched by a plain `\s` on the data that the
service handles). -/

/-- Whitespace as matched by JavaScript `trim()` / the regex class `\s`
(ASCII portion). -/
def isWsChar (c : Char) : Bool :=
  c = ' ' || c = '\t' || c = '\n' || c = '\r' || c = '\x0b' || c = '\x0c'

/-- Drop leading and trailing whitespace from a character list. -/
def trimChars (cs : List Char) : List Char :=
  ((cs.dropWhile isWsChar).reverse.dropWhile isWsChar).reverse

/-- JavaScript `String.prototype.trim()`. -/
def jsTrim (s : String) : String :=
  (trimChars s.toList).asString

/-- JavaScript `String.prototype.toLowerCase()` (ASCII). -/
def jsLower (s : String) : String :=
  (s.toList.map Char.toLower).asString

/-- `normalize` from the first revision of `src/server.js` (line 141):
`String(str).trim().toLowerCase().replace(/[-\s]/g, '')` — trim,
lowercase, then strip every `-` and every whitespace character. It is
applied to the email and the phone alike. -/
def normalize (s : String) : String :=
  (((trimChars s.toList).map Char.toLower).filter
    (fun c => !(c = '-' || isWsChar c))).asString

/-! ## Rows and sheets -/

/-- One data row of the `Customers` worksheet, columns Name/Email/Phone.
A JavaScript `null` or missing cell is modelled as `""` (both are falsy
and both normalize to the empty string, which is how every embedded scan
treats them). Revisions that carry a fourth column (Date / Date of
Birth) never read it in the operations embedded here except in
`part_002`, which gets its own row type below. -/
structure Row where
  name : String
  email : String
  phone : String
deriving DecidableEq, Repr

/-- A worksheet: the header row (list of cell texts) plus the data rows. -/
structure Sheet where
  header : List String
  rows : List Row
deriving DecidableEq, Repr

/-! ## C1 — duplicate classification (`src/server.js` first revision) -/

/-- The classification space named by the specification: `email`,
`phone`, or `both`. -/
inductive DupKind where
  | email
  | phone
  | both
deriving DecidableEq, Repr

/-- One iteration of the `sheet.eachRow` body of `checkDuplicates`
(`src/server.js` lines 148–152): the email comparison may overwrite the
accumulator with `'email'`, then the phone comparison may overwrite it
with `'phone'`. -/
def stepDup (e p : String) (r : Row) (dup : Option DupKind) : Option DupKind :=
  let d1 := if normalize r.email = normalize e then some DupKind.email else dup
  if normalize r.phone = normalize p then some DupKind.phone else d1

/-- The `eachRow` loop of `checkDuplicates`, scanning every data row and
threading the mutable `duplicate` variable. -/
def scanDup (e p : String) : List Row → Option DupKind → Option DupKind
  | [], dup => dup
  | r :: rs, dup => scanDup e p rs (stepDup e p r dup)

/-- `checkDuplicates` from the first revision of `src/server.js`
(lines 145–154): scan all data rows with `duplicate` starting at `null`. -/
def checkDuplicates (e p : String) (rows : List Row) : Option DupKind :=
  scanDup e p rows none

/-- Minimal response record used by the embedded handlers. -/
structure Resp where
  status : Nat
  success : Bool
  warning : Option String := none
deriving DecidableEq, Repr

/-- The `/submit` handler of the first revision of `src/server.js`
(lines 156–170), restricted to the table logic: missing fields give 400;
a non-`null` result of `checkDuplicates` gives 409 and leaves the table
unchanged; otherwise the record is appended (the Date column, filled
with the current date, is not modelled). -/
def submitRev1 (name email phone : String) (rows : List Row) :
    Resp × List Row :=
  if name = "" || email = "" || phone = "" then (⟨400, false, none⟩, rows)
  else
    match checkDuplicates email phone rows with
    | some _ => (⟨409, false, none⟩, rows)
    | none => (⟨200, true, none⟩, rows ++ [⟨name, email, phone⟩])

/-- `checkDuplicates` from `src/unnamed/part_000` (lines 193–218): the
input email is trimmed and lowercased, the input phone only trimmed
(rows come from `loadLocalExcel`, which trimmed each cell); the loop
stops at the first matching row, testing the email first. -/
def scanDupP0 (ne np : String) : List Row → Option DupKind
  | [] => none
  | r :: rs =>
    if jsLower r.email = ne then some DupKind.email
    else if r.phone = np then some DupKind.phone
    else scanDupP0 ne np rs

/-- Entry point of the `part_000` duplicate check: normalize the inputs
once, then scan. -/
def checkDuplicatesP0 (email phone : String) (rows : List Row) : Option DupKind :=
  scanDupP0 (jsLower (jsTrim email)) (jsTrim phone) rows

/-! ## C3 — the `/delete` handler (`src/server.js` second revision,
lines 785–937) -/

/-- `existingEmail.toString().toLowerCase().trim()` with `''` for a falsy
cell; since `""` lowercases and trims to `""`, one composition covers
both branches. -/
def jsNormEmail (s : String) : String := jsTrim (jsLower s)

/-- `existingPhone.toString().trim()` with `''` for a falsy cell. -/
def jsNormPhone (s : String) : String := jsTrim s

/-- The row-matching test of the `/delete` handler (lines 823–843).
`none` models a JavaScript-falsy request field (absent or `""`), for
which the corresponding normalized key is `null`; a key that normalizes
to the empty string is itself falsy and never matches. A row matches if
its normalized email equals the email key OR its normalized phone equals
the phone key. -/
def deleteMatches (emailArg phoneArg : Option String) (r : Row) : Bool :=
  (match emailArg with
   | none => false
   | some e =>
     let ne := jsNormEmail e
     !(ne = "") && jsNormEmail r.email = ne) ||
  (match phoneArg with
   | none => false
   | some p =>
     let np := jsNormPhone p
     !(np = "") && jsNormPhone r.phone = np)

/-- `sheet.getRow(1).values` of a loaded sheet, re-packaged as a `Row`
when the handler re-adds it through `addRow` (cells 1–3; a missing cell
is the empty string). -/
def headerRowOf (h : List String) : Row :=
  ⟨h.getD 0 "", h.getD 1 "", h.getD 2 ""⟩

/-- The column set assigned to the recreated worksheet (lines 856–860);
assigning `columns` with `header` entries writes these values into
row 1 of the new sheet. -/
def expectedHeaderSrv : List String := ["Name", "Email", "Phone"]

/-- The `/delete` handler of `src/server.js` (second revision,
lines 785–937), restricted to the table logic. It keeps
`sheet.getRow(1).values` as the first entry of `rowsToKeep`, collects
every non-matching data row, answers 400 when both keys are absent and
404 when no row matched (table untouched), and otherwise rebuilds the
worksheet: assigning `columns` creates the header row, after which
`addRow` appends every `rowsToKeep` entry — the saved copy of the old
header row included — as data rows. -/
def deleteHandler (emailArg phoneArg : Option String) (s : Sheet) :
    Resp × Sheet :=
  if emailArg = none && phoneArg = none then (⟨400, false, none⟩, s)
  else if s.rows.any (deleteMatches emailArg phoneArg) then
    (⟨200, true, none⟩,
      ⟨expectedHeaderSrv,
        headerRowOf s.header ::
          s.rows.filter (fun r => !deleteMatches emailArg phoneArg r)⟩)
  else (⟨404, false, none⟩, s)

/-- The delete operation as the specification words it (for comparison
with `deleteHandler`): remove exactly the matching records, keep the
header row, report whether anything matched, leave the table unchanged
otherwise. -/
def deleteSpecOfClaim (emailArg phoneArg : Option String) (s : Sheet) :
    Bool × Sheet :=
  if s.rows.any (deleteMatches emailArg phoneArg) then
    (true, ⟨s.header, s.rows.filter (fun r => !deleteMatches emailArg phoneArg r)⟩)
  else (false, s)

/-! ## C6 — corrupt-file salvage (`src/server.js` second revision,
lines 229–368) -/

/-- The workbook as read from disk: the `Customers` worksheet may be
absent. -/
structure Wb where
  customers : Option Sheet
deriving DecidableEq, Repr

/-- `validateWorkbook` (lines 266–294): the worksheet must exist and
`headers.slice(1, 4)` must equal `['Name', 'Email', 'Phone']`
positionally (extra trailing columns are tolerated); the row loop only
logs, so validity is the header check. Any failure yields `false`. -/
def validateWorkbook (w : Wb) : Bool :=
  match w.customers with
  | none => false
  | some sh => sh.header.take 3 = expectedHeaderSrv

/-- A row has all required fields when `name && email && phone` is
truthy (lines 312–316). -/
def requiredFields (r : Row) : Bool :=
  !(r.name = "") && !(r.email = "") && !(r.phone = "")

/-- `extractExistingData` (lines 297–326): best-effort salvage — every
data row whose three required cells are truthy, in order; no worksheet
means no rows. -/
def extractExistingData (w : Wb) : List Row :=
  match w.customers with
  | none => []
  | some sh => sh.rows.filter requiredFields

/-- `initializeExcel` (second revision, lines 229–239): a fresh
`Customers` sheet with the three-column header and no data rows. -/
def initializeExcelSrv : Sheet := ⟨expectedHeaderSrv, []⟩

/-- `loadLocalExcel` (lines 329–368). `readResult = none` models the
initial read throwing (missing file, failed disk/permission check);
`writeOk1` is the outcome of the recreation write inside the `try`
(line 352, disk check included), `writeOk2` the outcome of the write in
the `catch` (line 360). Returns the workbook handed to the caller and
the file content after the call (`none` = file untouched); `.error`
models the function throwing. On a validation failure the salvaged rows
are re-added to a fresh workbook and written back; if that write throws,
the outer `catch` initializes an empty workbook and writes it, and only
a failure of that second write propagates. -/
def loadLocalExcel (readResult : Option Wb) (writeOk1 writeOk2 : Bool) :
    Except String (Sheet × Option Sheet) :=
  match readResult with
  | some w =>
    if validateWorkbook w then
      .ok (w.customers.getD initializeExcelSrv, none)
    else
      let salvaged : Sheet := ⟨expectedHeaderSrv, extractExistingData w⟩
      if writeOk1 then .ok (salvaged, some salvaged)
      else if writeOk2 then .ok (initializeExcelSrv, some initializeExcelSrv)
      else .error "Failed to initialize new Excel file"
  | none =>
    if writeOk2 then .ok (initializeExcelSrv, some initializeExcelSrv)
    else .error "Failed to initialize new Excel file"

/-! ## C10 — email validation of `/submit` (`src/server.js` second
revision lines 595–621; identical in `src/unnamed/part_002`
lines 875–891) -/

/-- Character class `[a-zA-Z0-9._%+-]` of the email regex. -/
def localChar (c : Char) : Bool :=
  c.isAlpha || c.isDigit || c = '.' || c = '_' || c = '%' || c = '+' || c = '-'

/-- Character class `[a-zA-Z0-9.-]` of the email regex. -/
def domainChar (c : Char) : Bool :=
  c.isAlpha || c.isDigit || c = '.' || c = '-'

/-- The top-level-domain alternation of the email regex. -/
def allowedTLDs : List String :=
  ["com", "org", "net", "edu", "gov", "co", "io", "me", "biz"]

/-- The misspelled domains rejected at lines 611–616. -/
def commonMisspellings : List String :=
  ["gmil.com", "gail.com", "gmai.com", "gnail.com"]

/-- Split at the first occurrence of `c`: the part before it and the
part after it, or `none` when `c` does not occur. -/
def splitAtFirst (c : Char) (cs : List Char) : Option (List Char × List Char) :=
  match cs.span (fun x => !(x = c)) with
  | (_, []) => none
  | (l, _ :: r) => some (l, r)

/-- Split at the last occurrence of `c`. -/
def splitAtLast (c : Char) (cs : List Char) : Option (List Char × List Char) :=
  match splitAtFirst c cs.reverse with
  | none => none
  | some (tRev, dRev) => some (dRev.reverse, tRev.reverse)

/-- Decompose an email candidate into local part (before the first
`@`), domain body (between the `@` and the last dot of the remainder)
and top-level domain (after that dot), without any character-class
check. Because neither character class of the regex admits `@`, and no
alternation word contains a dot, an anchored regex match must use
exactly this decomposition. -/
def emailParts (s : String) : Option (List Char × List Char × List Char) :=
  match splitAtFirst '@' s.toList with
  | none => none
  | some (l, r) =>
    match splitAtLast '.' r with
    | none => none
    | some (d, t) => some (l, d, t)

/-- The test
`/^[a-zA-Z0-9._%+-]+@[a-zA-Z0-9.-]+\.(com|org|net|edu|gov|co|io|me|biz)$/i`
(line 605): nonempty local part over its class, `@`, nonempty domain
body over its class, a dot, and a case-insensitive allowed top-level
domain. -/
def emailRegexTest (s : String) : Bool :=
  match emailParts s with
  | none => false
  | some (l, d, t) =>
    !l.isEmpty && l.all localChar && !d.isEmpty && d.all domainChar &&
      allowedTLDs.contains (t.map Char.toLower).asString

/-- The claim's "general address shape": the same decomposition and
character classes, but with an arbitrary nonempty alphabetic top-level
domain in place of the fixed alternation. -/
def generalEmailShape (s : String) : Bool :=
  match emailParts s with
  | none => false
  | some (l, d, t) =>
    !l.isEmpty && l.all localChar && !d.isEmpty && d.all domainChar &&
      !t.isEmpty && t.all Char.isAlpha

/-- The lowercased top-level domain of an email candidate (empty when
the shape is absent). -/
def tldOf (s : String) : String :=
  match emailParts s with
  | none => ""
  | some (_, _, t) => (t.map Char.toLower).asString

/-- `email.split('@')[1].toLowerCase()` (line 611): the segment between
the first `@` and the next `@` or the end; `""` stands for the
undefined segment of an email without `@` (the handler only evaluates
this after the regex accepted, which forces exactly one `@`). -/
def mailDomain (s : String) : String :=
  match splitAtFirst '@' s.toList with
  | none => ""
  | some (_, r) => ((r.takeWhile (fun x => !(x = '@'))).map Char.toLower).asString

/-- `/^\d{10}$/.test(phone)` (line 618). -/
def phoneDigits10 (p : String) : Bool :=
  p.toList.length = 10 && p.toList.all Char.isDigit

/-- The early validation sequence of `/submit` (second revision,
lines 600–621): missing fields, the email regex, the misspelled-domain
list, then the 10-digit phone test; each failure answers 400 before any
table access. -/
def submitValidateSrv (name email phone : String) : Option Resp :=
  if name = "" || email = "" || phone = "" then some ⟨400, false, none⟩
  else if !emailRegexTest email then some ⟨400, false, none⟩
  else if commonMisspellings.contains (mailDomain email) then
    some ⟨400, false, none⟩
  else if !phoneDigits10 phone then some ⟨400, false, none⟩
  else none

/-- `getDuplicateErrorMessage` (lines 584–592). -/
def getDuplicateErrorMessage (emailExists phoneExists : Bool) : String :=
  if emailExists && phoneExists then "Email and phone number already exist"
  else if emailExists then "Email already exists"
  else "Phone number already exists"

/-- The duplicate-check-and-append path of `/submit` (second revision,
lines 645–704) on the premise that the preceding download, load and the
local write succeed (their failure branches are modelled separately:
`loadLocalExcel` above, the upload models below). The input email is
lowercased and trimmed, the phone trimmed; a row whose normalized cell
is truthy and equal marks the field as existing; any existing field
answers 400 without touching the table, otherwise the record is
appended. -/
def submitCoreSrv (name email phone : String) (s : Sheet) : Resp × Sheet :=
  let ne := jsNormEmail email
  let np := jsNormPhone phone
  let emailExists :=
    s.rows.any (fun r => !(jsNormEmail r.email = "") && jsNormEmail r.email = ne)
  let phoneExists :=
    s.rows.any (fun r => !(jsNormPhone r.phone = "") && jsNormPhone r.phone = np)
  if emailExists || phoneExists then (⟨400, false, none⟩, s)
  else (⟨200, true, none⟩, ⟨s.header, s.rows ++ [⟨name, email, phone⟩]⟩)

/-- The `/submit` handler of the second revision of `src/server.js`:
early validation, then the table path. -/
def submitSrv (name email phone : String) (s : Sheet) : Resp × Sheet :=
  match submitValidateSrv name email phone with
  | some r => (r, s)
  | none => submitCoreSrv name email phone s

/-! ## C2 — atomic replace versus in-place write

File contents are observed at parse granularity: a file is absent,
partial (a write began but did not complete), or holds a parsable
table. A persistence routine is a list of primitive file-system steps;
an interruption is running only a prefix of them. -/

/-- Observable content of one file. -/
inductive FileData (α : Type) where
  | absent
  | truncated
  | good (content : α)
deriving DecidableEq, Repr

/-- The two files `saveWorkbook` touches: `customers_temp.xlsx` and
`customers.xlsx`. -/
structure FS (α : Type) where
  temp : FileData α
  target : FileData α
deriving DecidableEq, Repr

/-- Run a list of file-system steps in order. -/
def runSteps {α : Type} (steps : List (FS α → FS α)) (fs : FS α) : FS α :=
  steps.foldl (fun a f => f a) fs

/-- `saveWorkbook` from the first revision of `src/server.js`
(lines 122–129): serialize the workbook to `TEMP_EXCEL_FILE` (the write
starts, leaving the temp file partial, then completes), then
`fs.rename` the temp file over `LOCAL_EXCEL_FILE` (one atomic step that
also removes the temp path). -/
def saveWorkbookSteps {α : Type} (t : α) : List (FS α → FS α) :=
  [fun fs => { fs with temp := .truncated },
   fun fs => { fs with temp := .good t },
   fun fs => { temp := .absent, target := fs.temp }]

/-- The write of the `/submit` loop of `src/unnamed/part_002`
(lines 1035–1048): `workbook.xlsx.writeFile(LOCAL_EXCEL_FILE)` writes
the target path in place — the write starts on the target file itself,
then completes; no temporary path and no rename are involved. -/
def submitWriteStepsP2 {α : Type} (t : α) : List (FS α → FS α) :=
  [fun fs => { fs with target := .truncated },
   fun fs => { fs with target := .good t }]

/-! ## Part_002 workbook model (used by the download, upload and submit
models below) -/

/-- A data row of the `part_002` `Customers` worksheet (columns
Name/Email/Phone/Date of Birth). -/
structure P2Row where
  name : String
  email : String
  phone : String
  dob : String
deriving DecidableEq, Repr

/-- A data row of the `part_002` `Feedback` worksheet. -/
structure FbRow where
  name : String
  review : String
  timestamp : String
deriving DecidableEq, Repr

/-- The `Customers` worksheet of `part_002`. -/
structure P2Sheet where
  header : List String
  rows : List P2Row
deriving DecidableEq, Repr

/-- The `Feedback` worksheet of `part_002`. -/
structure FbSheet where
  header : List String
  rows : List FbRow
deriving DecidableEq, Repr

/-- A `part_002` workbook: both worksheets may be absent. -/
structure P2Wb where
  customers : Option P2Sheet
  feedback : Option FbSheet
deriving DecidableEq, Repr

/-- Expected `Customers` header of `part_002`. -/
def custHeaderP2 : List String := ["Name", "Email", "Phone", "Date of Birth"]

/-- Expected `Feedback` header of `part_002`. -/
def fbHeaderP2 : List String := ["Name", "Review", "Timestamp"]

/-- `initializeExcel` of `part_002` (lines 31–51): both sheets with
their headers and no data rows. -/
def initializeExcelP2 : P2Wb :=
  ⟨some ⟨custHeaderP2, []⟩, some ⟨fbHeaderP2, []⟩⟩

/-- `validateWorkbook` of `part_002` (lines 96–162): both worksheets
must exist and their `slice(1, …)` headers must equal the expected
lists positionally; the row loops only log. -/
def validateWorkbookP2 (w : P2Wb) : Bool :=
  (match w.customers with
   | none => false
   | some cs => cs.header.take 4 = custHeaderP2) &&
  (match w.feedback with
   | none => false
   | some fb => fb.header.take 3 = fbHeaderP2)

/-- `extractExistingData` of `part_002` (lines 165–195): keep every
`Customers` data row whose name, email and phone are truthy and trim to
something nonempty; `dob` is carried along unchecked. -/
def extractExistingDataP2 (w : P2Wb) : List P2Row :=
  match w.customers with
  | none => []
  | some cs =>
    cs.rows.filter (fun r =>
      !(jsTrim r.name = "") && !(jsTrim r.email = "") && !(jsTrim r.phone = ""))

/-- `extractExistingFeedbackData` of `part_002` (lines 198–227). -/
def extractExistingFeedbackDataP2 (w : P2Wb) : List FbRow :=
  match w.feedback with
  | none => []
  | some fb =>
    fb.rows.filter (fun r => !(jsTrim r.name = "") && !(jsTrim r.review = ""))

/-- Process state of `part_002`: the `localChangesPending` flag and the
content of `customers.xlsx`. -/
structure P2SyncSt where
  dirty : Bool
  localFile : Option P2Wb
deriving DecidableEq, Repr

/-! ## C4 / C7 / C8 — the upload retry loops -/

/-- Result of one call of an upload routine: whether it returned
successfully (`ok = false` models the final `throw`), how many attempts
ran, the delays slept between consecutive attempts, and the state after
the call. -/
structure UploadOut (σ : Type) where
  ok : Bool
  attempts : Nat
  delays : List Nat
  state : σ
deriving DecidableEq, Repr

/-- The `while (retries < maxRetries)` upload loop shared by
`src/unnamed/part_001` lines 420–482, `src/server.js` (second revision)
lines 468–529 and `src/unnamed/part_002` lines 526–609, parameterised
by the delay schedule and by the outcome of each attempt
(`outcomes k` is whether attempt `k` reaches the Drive update/create
without throwing). A successful attempt runs `clear` (the
`localChangesPending = false` assignment) and returns; a failed attempt
increments `retries`, rethrows when `retries === maxRetries`, and
otherwise sleeps `delayOf retries` before the next attempt. No step of
the loop writes the local Excel file. -/
def uploadGo {σ : Type} (clear : σ → σ) (delayOf : Nat → Nat)
    (maxRetries : Nat) (outcomes : Nat → Bool) :
    Nat → Nat → σ → UploadOut σ
  | 0, _, s => ⟨false, 0, [], s⟩
  | fuel + 1, retries, s =>
    if outcomes (retries + 1) then ⟨true, 1, [], clear s⟩
    else if retries + 1 = maxRetries then ⟨false, 1, [], s⟩
    else
      let rest := uploadGo clear delayOf maxRetries outcomes fuel (retries + 1) s
      ⟨rest.ok, rest.attempts + 1, delayOf (retries + 1) :: rest.delays, rest.state⟩

/-- Process state of `src/server.js` (second revision) and of
`src/unnamed/part_001`: the `localChangesPending` flag and the content
of `customers.xlsx` (a `Wb` workbook). -/
structure SrvSyncSt where
  dirty : Bool
  localFile : Option Wb
deriving DecidableEq, Repr

/-- `uploadToGoogleDrive(maxRetries = 3)` of `src/server.js` (second
revision, lines 468–529) and of `src/unnamed/part_001` (lines 420–482):
backoff `1000 * retries` milliseconds. -/
def uploadToGoogleDriveSrv (outcomes : Nat → Bool) (s : SrvSyncSt) :
    UploadOut SrvSyncSt :=
  uploadGo (fun s => { s with dirty := false }) (fun k => 1000 * k) 3 outcomes 3 0 s

/-- `uploadToGoogleDrive(maxRetries = 3)` of `src/unnamed/part_002`
(lines 526–609): `const delay = 5000` — a fixed five-second sleep
between consecutive attempts. -/
def uploadToGoogleDriveP2 (outcomes : Nat → Bool) (s : P2SyncSt) :
    UploadOut P2SyncSt :=
  uploadGo (fun s => { s with dirty := false }) (fun _ => 5000) 3 outcomes 3 0 s

/-- One tick of `startGoogleDriveSync` of `src/unnamed/part_002`
(lines 612–633): when `localChangesPending` is set, call
`uploadToGoogleDrive` (a throw is caught and logged, so the resulting
state stands either way); otherwise do nothing. -/
def periodicSyncCycleP2 (outcomes : Nat → Bool) (s : P2SyncSt) : P2SyncSt :=
  if s.dirty then (uploadToGoogleDriveP2 outcomes s).state else s

/-- The tail of `/submit` in `src/server.js` (second revision,
lines 739–753): after the successful local write, set
`localChangesPending = true` and try the immediate upload; a throw is
downgraded to a 200 response carrying a warning string. -/
def submitUploadPhaseSrv (outcomes : Nat → Bool) (s : SrvSyncSt) :
    Resp × SrvSyncSt :=
  let u := uploadToGoogleDriveSrv outcomes { s with dirty := true }
  if u.ok then (⟨200, true, none⟩, u.state)
  else
    (⟨200, true,
       some "Data saved locally, but failed to sync to Google Drive. Please contact support."⟩,
     u.state)

/-- The tail of `/submit` in `src/unnamed/part_002` (lines 1053–1067):
after the successful local write, set `localChangesPending = true` and
try the immediate upload; the `catch` only logs ("Changes will be
synced during the next periodic sync.") and the 200 response is built
afterwards without any warning field. -/
def submitUploadPhaseP2 (outcomes : Nat → Bool) (s : P2SyncSt) :
    Resp × P2SyncSt :=
  let u := uploadToGoogleDriveP2 outcomes { s with dirty := true }
  (⟨200, true, none⟩, u.state)

/-! ## C5 / C9 — the download guards -/

/-- Environment of one `downloadFromGoogleDrive` call: whether anything
in its `try` block throws (Drive listing, streaming, reading), and the
workbook stored remotely (`none` = no remote file). -/
structure DlEnvP2 where
  throws : Bool
  remote : Option P2Wb
deriving DecidableEq, Repr

/-- `downloadFromGoogleDrive(forceSync = false)` of `src/unnamed/part_002`
(lines 358–523). When `localChangesPending && !forceSync` the call
returns at once (first component `false`: the download did not run) and
touches nothing. Otherwise it runs: a throw is recovered by writing a
freshly initialized empty workbook over the local file; an absent
remote file likewise initializes a fresh local workbook; a valid
downloaded workbook becomes the local file; an invalid one is recreated
from its salvageable rows. Every completed run ends with
`localChangesPending = false` (lines 489–491 and 519–521). A throw
inside the recovery write itself would abort the call without reaching
that reset; such an aborted call is outside this model, which describes
calls that run to completion. -/
def downloadFromGoogleDriveP2 (forceSync : Bool) (env : DlEnvP2)
    (s : P2SyncSt) : Bool × P2SyncSt :=
  if s.dirty && !forceSync then (false, s)
  else if env.throws then (true, ⟨false, some initializeExcelP2⟩)
  else
    match env.remote with
    | none => (true, ⟨false, some initializeExcelP2⟩)
    | some wb =>
      if validateWorkbookP2 wb then (true, ⟨false, some wb⟩)
      else
        (true,
         ⟨false,
           some ⟨some ⟨custHeaderP2, extractExistingDataP2 wb⟩,
                 some ⟨fbHeaderP2, extractExistingFeedbackDataP2 wb⟩⟩⟩)

/-- Environment of a `downloadFromGoogleDrive` call of `src/server.js`
(second revision). -/
structure DlEnvSrv where
  throws : Bool
  remote : Option Wb
deriving DecidableEq, Repr

/-- `downloadFromGoogleDrive` of `src/server.js` (second revision,
lines 382–465). No `forceSync` parameter exists: the call returns at
once whenever `localChangesPending` is set. A completed run replaces
the local file (downloaded workbook, its salvaged recreation, or a
fresh initialization on an absent remote file or a throw) but never
assigns `localChangesPending`. -/
def downloadFromGoogleDriveSrv (env : DlEnvSrv) (s : SrvSyncSt) :
    Bool × SrvSyncSt :=
  if s.dirty then (false, s)
  else if env.throws then (true, ⟨s.dirty, some ⟨some initializeExcelSrv⟩⟩)
  else
    match env.remote with
    | none => (true, ⟨s.dirty, some ⟨some initializeExcelSrv⟩⟩)
    | some wb =>
      if validateWorkbook wb then (true, ⟨s.dirty, some wb⟩)
      else
        (true,
         ⟨s.dirty, some ⟨some ⟨expectedHeaderSrv, extractExistingData wb⟩⟩⟩)

/-! ## Lemmas about the duplicate scan -/

lemma stepDup_none_iff (e p : String) (r : Row) (d : Option DupKind) :
    stepDup e p r d = none ↔
      d = none ∧ normalize r.email ≠ normalize e ∧ normalize r.phone ≠ normalize p := by
  by_cases h1 : normalize r.email = normalize e <;>
    by_cases h2 : normalize r.phone = normalize p <;>
      simp [stepDup, h1, h2]

lemma stepDup_ne_both (e p : String) (r : Row) (d : Option DupKind)
    (hd : d ≠ some DupKind.both) : stepDup e p r d ≠ some DupKind.both := by
  by_cases h1 : normalize r.email = normalize e <;>
    by_cases h2 : normalize r.phone = normalize p <;>
      simp [stepDup, h1, h2, hd]

lemma scanDup_none_iff (e p : String) :
    ∀ (rows : List Row) (d : Option DupKind),
      scanDup e p rows d = none ↔
        d = none ∧
          ∀ r ∈ rows, normalize r.email ≠ normalize e ∧ normalize r.phone ≠ normalize p := by
  intro rows
  induction rows with
  | nil => intro d; simp [scanDup]
  | cons r rs ih =>
    intro d
    rw [scanDup, ih, stepDup_none_iff]
    constructor
    · rintro ⟨⟨hd, h1, h2⟩, hrest⟩
      exact ⟨hd, by simpa using And.intro (And.intro h1 h2) hrest⟩
    · rintro ⟨hd, hall⟩
      have hr := hall r (by simp)
      exact ⟨⟨hd, hr.1, hr.2⟩, fun x hx => hall x (by simp [hx])⟩

lemma scanDup_ne_both (e p : String) :
    ∀ (rows : List Row) (d : Option DupKind), d ≠ some DupKind.both →
      scanDup e p rows d ≠ some DupKind.both := by
  intro rows
  induction rows with
  | nil => intro d hd; simpa [scanDup] using hd
  | cons r rs ih =>
    intro d hd
    rw [scanDup]
    exact ih _ (stepDup_ne_both e p r d hd)

lemma scanDup_no_phone (e p : String) :
    ∀ (rows : List Row) (d : Option DupKind),
      (∀ r ∈ rows, normalize r.phone ≠ normalize p) →
      scanDup e p rows d =
        if rows.any (fun x => decide (normalize x.email = normalize e)) then
          some DupKind.email
        else d := by
  intro rows
  induction rows with
  | nil => intro d _; simp [scanDup]
  | cons r rs ih =>
    intro d hnp
    have hr : normalize r.phone ≠ normalize p := hnp r (by simp)
    have hrest : ∀ x ∈ rs, normalize x.phone ≠ normalize p :=
      fun x hx => hnp x (by simp [hx])
    rw [scanDup, ih _ hrest, List.any_cons]
    by_cases h1 : normalize r.email = normalize e
    · simp [stepDup, h1, hr]
    · simp [stepDup, h1, hr]

lemma scanDup_no_email (e p : String) :
    ∀ (rows : List Row) (d : Option DupKind),
      (∀ r ∈ rows, normalize r.email ≠ normalize e) →
      scanDup e p rows d =
        if rows.any (fun x => decide (normalize x.phone = normalize p)) then
          some DupKind.phone
        else d := by
  intro rows
  induction rows with
  | nil => intro d _; simp [scanDup]
  | cons r rs ih =>
    intro d hne
    have hr : normalize r.email ≠ normalize e := hne r (by simp)
    have hrest : ∀ x ∈ rs, normalize x.email ≠ normalize e :=
      fun x hx => hne x (by simp [hx])
    rw [scanDup, ih _ hrest, List.any_cons]
    by_cases h2 : normalize r.phone = normalize p
    · simp [stepDup, h2, hr]
    · simp [stepDup, h2, hr]

lemma scanDup_congr (e p e' p' : String) (he : normalize e' = normalize e)
    (hp : normalize p' = normalize p) :
    ∀ (rows : List Row) (d : Option DupKind),
      scanDup e' p' rows d = scanDup e p rows d := by
  intro rows
  induction rows with
  | nil => intro d; rfl
  | cons r rs ih =>
    intro d
    rw [scanDup, scanDup, ih]
    congr 1
    simp [stepDup, he, hp]

lemma scanDupP0_ne_both (ne np : String) :
    ∀ rows : List Row, scanDupP0 ne np rows ≠ some DupKind.both := by
  intro rows
  induction rows with
  | nil => simp [scanDupP0]
  | cons r rs ih =>
    by_cases h1 : jsLower r.email = ne <;> by_cases h2 : r.phone = np <;>
      simp [scanDupP0, h1, h2, ih]

/-! ## C1 theorems -/

/-- Claim C1, counterexample. A stored record whose normalized email
AND normalized phone both equal the submitted record's (the inputs
differ only by case, whitespace and `-` separators) is classified
`'phone'` by `checkDuplicates` of `src/server.js`, not `'both'` as the
claim states: the phone comparison runs after the email comparison and
overwrites the classification. -/
theorem checkDuplicates_both_counterexample :
    normalize "a@x.com" = normalize "A@X.COM " ∧
    normalize "5551234567" = normalize "555-123-4567" ∧
    checkDuplicates "A@X.COM " "555-123-4567"
        [⟨"Ann", "a@x.com", "5551234567"⟩] = some DupKind.phone ∧
    some DupKind.phone ≠ some DupKind.both := by
  decide

/-- Claim C1 (amended): for the `checkDuplicates` of `src/server.js`
(first revision), a submission is flagged as a duplicate exactly when
some stored record's normalized email or normalized phone equals the
submitted one's, and the `/submit` handler then rejects it with 409
leaving the table unchanged; when only the email (resp. only the phone)
matches, the classification is `email` (resp. `phone`); the result is
never `both` — when both fields match, the last matching comparison in
scan order wins — and `checkDuplicates` of `part_000` never returns
`both` either; normalization (trim, lowercase, strip `-` and
whitespace, applied to both fields) makes the outcome invariant under
case, whitespace and separator differences in the submitted values. -/
theorem checkDuplicates_classification (e p : String) (rows : List Row) :
    (checkDuplicates e p rows = none ↔
      ∀ r ∈ rows, normalize r.email ≠ normalize e ∧ normalize r.phone ≠ normalize p)
    ∧ checkDuplicates e p rows ≠ some DupKind.both
    ∧ checkDuplicatesP0 e p rows ≠ some DupKind.both
    ∧ ((∃ r ∈ rows, normalize r.email = normalize e) →
        (∀ r ∈ rows, normalize r.phone ≠ normalize p) →
        checkDuplicates e p rows = some DupKind.email)
    ∧ ((∃ r ∈ rows, normalize r.phone = normalize p) →
        (∀ r ∈ rows, normalize r.email ≠ normalize e) →
        checkDuplicates e p rows = some DupKind.phone)
    ∧ (∀ e' p', normalize e' = normalize e → normalize p' = normalize p →
        checkDuplicates e' p' rows = checkDuplicates e p rows)
    ∧ (∀ name, name ≠ "" → e ≠ "" → p ≠ "" → checkDuplicates e p rows ≠ none →
        submitRev1 name e p rows = (⟨409, false, none⟩, rows)) := by
  refine ⟨?_, ?_, ?_, ?_, ?_, ?_, ?_⟩
  · rw [checkDuplicates, scanDup_none_iff]
    simp
  · exact scanDup_ne_both e p rows none (by simp)
  · exact scanDupP0_ne_both _ _ rows
  · intro hex hnp
    rw [checkDuplicates, scanDup_no_phone e p rows none hnp, if_pos]
    rw [List.any_eq_true]
    obtain ⟨r, hr, hmatch⟩ := hex
    exact ⟨r, hr, by simpa using hmatch⟩
  · intro hex hne
    rw [checkDuplicates, scanDup_no_email e p rows none hne, if_pos]
    rw [List.any_eq_true]
    obtain ⟨r, hr, hmatch⟩ := hex
    exact ⟨r, hr, by simpa using hmatch⟩
  · intro e' p' he hp
    rw [checkDuplicates, checkDuplicates, scanDup_congr e p e' p' he hp]
  · intro name hn he hp hdup
    obtain ⟨d, hd⟩ := Option.ne_none_iff_exists'.mp hdup
    simp [submitRev1, hn, he, hp, hd]

/-- Witness for the hypothesis-bearing components of
`checkDuplicates_classification`, at a concrete table where only the
email matches (under case and whitespace differences). -/
theorem checkDuplicates_classification_witness :
    checkDuplicates "A@X.COM " "999" [⟨"Ann", "a@x.com", "5551234567"⟩]
        = some DupKind.email ∧
    submitRev1 "Bea" "A@X.COM " "999" [⟨"Ann", "a@x.com", "5551234567"⟩]
        = (⟨409, false, none⟩, [⟨"Ann", "a@x.com", "5551234567"⟩]) := by
  have h := checkDuplicates_classification "A@X.COM " "999"
    [⟨"Ann", "a@x.com", "5551234567"⟩]
  refine ⟨h.2.2.2.1 ⟨⟨"Ann", "a@x.com", "5551234567"⟩, by decide, by decide⟩
      (by decide), ?_⟩
  exact h.2.2.2.2.2.2 "Bea" (by decide) (by decide) (by decide) (by decide)

/-! ## C3 theorems -/

/-- Claim C3, counterexample. Deleting the only record of a table by
its email: the claim demands that exactly the matching record be
removed, leaving no data rows, but the handler re-adds the saved copy
of the header row (`rowsToKeep` starts with `sheet.getRow(1).values`,
and `addRow` appends it below the header that assigning `columns`
already created) — the resulting sheet carries one data row
`⟨"Name", "Email", "Phone"⟩` that was never a stored record. -/
theorem deleteHandler_counterexample :
    (deleteHandler (some "a@x.com") none
        ⟨["Name", "Email", "Phone"], [⟨"Ann", "a@x.com", "5551234567"⟩]⟩).2.rows
      = [⟨"Name", "Email", "Phone"⟩] ∧
    (deleteSpecOfClaim (some "a@x.com") none
        ⟨["Name", "Email", "Phone"], [⟨"Ann", "a@x.com", "5551234567"⟩]⟩).2.rows
      = [] ∧
    (deleteHandler (some "a@x.com") none
        ⟨["Name", "Email", "Phone"], [⟨"Ann", "a@x.com", "5551234567"⟩]⟩).2
      ≠ (deleteSpecOfClaim (some "a@x.com") none
        ⟨["Name", "Email", "Phone"], [⟨"Ann", "a@x.com", "5551234567"⟩]⟩).2 := by
  decide

/-- Claim C3 (amended): the `/delete` handler removes every record
whose normalized email equals the given email OR whose normalized phone
equals the given phone; with both keys absent it answers 400 and with
no matching record 404, leaving the table unchanged in either case;
when records match, the worksheet is rebuilt contiguously as the
expected header row followed first by a data-row copy of the old header
row (an artifact of re-adding `getRow(1).values` below the header that
assigning `columns` creates) and then by exactly the non-matching
records in their original order. -/
theorem deleteHandler_spec (emailArg phoneArg : Option String) (s : Sheet) :
    (emailArg = none → phoneArg = none →
      deleteHandler emailArg phoneArg s = (⟨400, false, none⟩, s))
    ∧ (¬(emailArg = none ∧ phoneArg = none) →
        (¬∃ r ∈ s.rows, deleteMatches emailArg phoneArg r = true) →
        deleteHandler emailArg phoneArg s = (⟨404, false, none⟩, s))
    ∧ (¬(emailArg = none ∧ phoneArg = none) →
        (∃ r ∈ s.rows, deleteMatches emailArg phoneArg r = true) →
        deleteHandler emailArg phoneArg s =
          (⟨200, true, none⟩,
            ⟨expectedHeaderSrv,
              headerRowOf s.header ::
                s.rows.filter (fun r => !deleteMatches emailArg phoneArg r)⟩))
    ∧ (∀ r ∈ s.rows, deleteMatches emailArg phoneArg r = false →
        r ∈ (deleteHandler emailArg phoneArg s).2.rows)
    ∧ (∀ r ∈ (deleteHandler emailArg phoneArg s).2.rows,
        r = headerRowOf s.header ∨ r ∈ s.rows) := by
  by_cases hnone : emailArg = none ∧ phoneArg = none
  · obtain ⟨h1, h2⟩ := hnone
    refine ⟨fun _ _ => by simp [deleteHandler, h1, h2], ?_, ?_, ?_, ?_⟩
    · intro hc; exact absurd ⟨h1, h2⟩ hc
    · intro hc; exact absurd ⟨h1, h2⟩ hc
    · intro r hr _; simpa [deleteHandler, h1, h2] using hr
    · intro r hr; right; simpa [deleteHandler, h1, h2] using hr
  · have hcond : (emailArg = none && phoneArg = none) = false := by
      rcases emailArg with _ | e <;> rcases phoneArg with _ | p <;>
        simp_all
    by_cases hex : ∃ r ∈ s.rows, deleteMatches emailArg phoneArg r = true
    · have hany : s.rows.any (deleteMatches emailArg phoneArg) = true :=
        List.any_eq_true.mpr hex
      refine ⟨fun h1 h2 => absurd ⟨h1, h2⟩ hnone,
        fun _ hne => absurd hex hne,
        fun _ _ => by simp [deleteHandler, hcond, hany], ?_, ?_⟩
      · intro r hr hm
        simp only [deleteHandler, hcond, hany]
        simp only [Bool.false_eq_true, if_false, if_true]
        exact List.mem_cons_of_mem _ (List.mem_filter.mpr ⟨hr, by simp [hm]⟩)
      · intro r hr
        simp only [deleteHandler, hcond, hany, Bool.false_eq_true, if_false,
          if_true] at hr
        rcases List.mem_cons.mp hr with h | h
        · exact Or.inl h
        · exact Or.inr (List.mem_filter.mp h).1
    · have hany : s.rows.any (deleteMatches emailArg phoneArg) = false := by
        rw [Bool.eq_false_iff]
        intro hc
        exact hex (List.any_eq_true.mp hc)
      refine ⟨fun h1 h2 => absurd ⟨h1, h2⟩ hnone,
        fun _ _ => by simp [deleteHandler, hcond, hany],
        fun _ hx => absurd hx hex, ?_, ?_⟩
      · intro r hr _
        simpa [deleteHandler, hcond, hany] using hr
      · intro r hr
        right
        simpa [deleteHandler, hcond, hany] using hr

/-- Witness for `deleteHandler_spec`: deleting by phone from a
two-record table removes exactly the matching record (plus the
header-copy artifact row). -/
theorem deleteHandler_spec_witness :
    deleteHandler none (some "555-123-4567 ")
        ⟨["Name", "Email", "Phone"],
          [⟨"Ann", "a@x.com", "555-123-4567"⟩, ⟨"Bea", "b@x.com", "5559876543"⟩]⟩
      = (⟨200, true, none⟩,
          ⟨["Name", "Email", "Phone"],
            [⟨"Name", "Email", "Phone"⟩, ⟨"Bea", "b@x.com", "5559876543"⟩]⟩) := by
  have h := (deleteHandler_spec none (some "555-123-4567 ")
    ⟨["Name", "Email", "Phone"],
      [⟨"Ann", "a@x.com", "555-123-4567"⟩, ⟨"Bea", "b@x.com", "5559876543"⟩]⟩).2.2.1
    (by simp)
    ⟨⟨"Ann", "a@x.com", "555-123-4567"⟩, by decide, by decide⟩
  rw [h]
  decide

/-! ## C6 theorems -/

/-- Claim C6: when the local file fails validation, `loadLocalExcel`
salvages exactly the rows whose required fields (name, email, phone)
are all present, reinitializes the file with exactly those rows (first
conjunct), and the corruption never reaches the caller as a failure on
its own: the call throws exactly when both the recreation write and the
fallback write of the outer catch fail (third conjunct); a failed first
recreation write alone still returns successfully, with the file reset
to a fresh empty workbook (second conjunct). The fourth conjunct pins
down the salvage set row by row. -/
theorem loadLocalExcel_salvage (w : Wb) (writeOk1 writeOk2 : Bool)
    (hinv : validateWorkbook w = false) :
    (loadLocalExcel (some w) true writeOk2 =
      .ok (⟨expectedHeaderSrv, extractExistingData w⟩,
           some ⟨expectedHeaderSrv, extractExistingData w⟩))
    ∧ (writeOk1 = false → writeOk2 = true →
        loadLocalExcel (some w) writeOk1 writeOk2 =
          .ok (initializeExcelSrv, some initializeExcelSrv))
    ∧ ((loadLocalExcel (some w) writeOk1 writeOk2).isOk = (writeOk1 || writeOk2))
    ∧ (∀ r : Row, r ∈ extractExistingData w ↔
        ∃ sh, w.customers = some sh ∧ r ∈ sh.rows ∧ requiredFields r = true) := by
  refine ⟨by simp [loadLocalExcel, hinv], ?_, ?_, ?_⟩
  · intro h1 h2
    simp [loadLocalExcel, hinv, h1, h2]
  · rcases writeOk1 with _ | _ <;> rcases writeOk2 with _ | _ <;>
      simp [loadLocalExcel, hinv, Except.isOk, Except.toBool]
  · intro r
    rcases hc : w.customers with _ | sh
    · simp [extractExistingData, hc]
    · simp [extractExistingData, hc, List.mem_filter]

/-- Witness for `loadLocalExcel_salvage`: a workbook with a wrong
header, one complete row and one row missing its name; the complete row
is salvaged, the incomplete one dropped, and the file is rewritten with
exactly the salvaged row. -/
theorem loadLocalExcel_salvage_witness :
    loadLocalExcel
        (some ⟨some ⟨["Nom", "Email", "Phone"],
          [⟨"Ann", "a@x.com", "5551234567"⟩, ⟨"", "b@x.com", "5559876543"⟩]⟩⟩)
        true true
      = .ok (⟨["Name", "Email", "Phone"], [⟨"Ann", "a@x.com", "5551234567"⟩]⟩,
             some ⟨["Name", "Email", "Phone"], [⟨"Ann", "a@x.com", "5551234567"⟩]⟩) := by
  have h := (loadLocalExcel_salvage
    ⟨some ⟨["Nom", "Email", "Phone"],
      [⟨"Ann", "a@x.com", "5551234567"⟩, ⟨"", "b@x.com", "5559876543"⟩]⟩⟩
    true true (by decide)).1
  rw [h]
  rfl

/-! ## C10 theorems -/

lemma emailRegexTest_false_of_bad_tld (s : String)
    (htld : tldOf s ∉ allowedTLDs) :
    emailRegexTest s = false := by
  unfold emailRegexTest
  unfold tldOf at htld
  rcases hparts : emailParts s with _ | ⟨l, d, t⟩
  · rfl
  · rw [hparts] at htld
    simp
    intro _ _ _ _
    exact htld

/-- Claim C10: any submission whose email has the general address shape
but a top-level domain outside
com/org/net/edu/gov/co/io/me/biz, or whose domain (the lowercased part
after `@`) is one of the misspellings gmil.com/gail.com/gmai.com/
gnail.com, is rejected by the `/submit` handler with status 400 and
`success = false`, and the table is not modified. -/
theorem submit_rejects_bad_email (name email phone : String) (s : Sheet)
    (h : (generalEmailShape email = true ∧ tldOf email ∉ allowedTLDs) ∨
          mailDomain email ∈ commonMisspellings) :
    (submitSrv name email phone s).1.status = 400 ∧
    (submitSrv name email phone s).1.success = false ∧
    (submitSrv name email phone s).2 = s := by
  have hval : submitValidateSrv name email phone = some ⟨400, false, none⟩ := by
    unfold submitValidateSrv
    by_cases hmiss : name = "" ∨ email = "" ∨ phone = ""
    · have : (name = "" || email = "" || phone = "") = true := by
        rcases hmiss with h1 | h1 | h1 <;> simp [h1]
      simp [this]
    · push_neg at hmiss
      obtain ⟨h1, h2, h3⟩ := hmiss
      have hcond : (name = "" || email = "" || phone = "") = false := by
        simp [h1, h2, h3]
      rcases h with ⟨_, htld⟩ | hmis
      · have hreg := emailRegexTest_false_of_bad_tld email htld
        simp [hcond, hreg]
      · rcases hreg : emailRegexTest email with _ | _
        · simp [hcond, hreg]
        · simp [hcond, hreg, hmis]
  simp [submitSrv, hval]

/-- Witness for `submit_rejects_bad_email`: `a@x.xyz` is well-shaped
but its top-level domain `xyz` is not in the allowed list, so the
handler answers 400 and the one-row table is untouched. -/
theorem submit_rejects_bad_email_witness :
    (submitSrv "Bea" "a@x.xyz" "5550000000"
        ⟨["Name", "Email", "Phone"], [⟨"Ann", "a@x.com", "5551234567"⟩]⟩).1.status
      = 400 ∧
    (submitSrv "Bea" "a@x.xyz" "5550000000"
        ⟨["Name", "Email", "Phone"], [⟨"Ann", "a@x.com", "5551234567"⟩]⟩).1.success
      = false ∧
    (submitSrv "Bea" "a@x.xyz" "5550000000"
        ⟨["Name", "Email", "Phone"], [⟨"Ann", "a@x.com", "5551234567"⟩]⟩).2
      = ⟨["Name", "Email", "Phone"], [⟨"Ann", "a@x.com", "5551234567"⟩]⟩ :=
  submit_rejects_bad_email "Bea" "a@x.xyz" "5550000000"
    ⟨["Name", "Email", "Phone"], [⟨"Ann", "a@x.com", "5551234567"⟩]⟩
    (Or.inl ⟨by decide, by decide⟩)

/-! ## C2 theorems -/

/-- Whether a file currently holds a parsable table. -/
def FileData.isParsable {α : Type} : FileData α → Bool
  | .good _ => true
  | _ => false

/-- Claim C2, counterexample. The `/submit` write loop of
`src/unnamed/part_002` serializes straight onto `customers.xlsx` with
no temporary path and no rename; interrupting it after the write has
begun leaves the target file truncated — neither the previous valid
content nor any parsable table — so this persistence write is not an
atomic replace. -/
theorem submitWrite_not_atomic_counterexample :
    (runSteps
        ((submitWriteStepsP2 ([⟨"Bea", "b@x.com", "5550000000"⟩] : List Row)).take 1)
        ⟨FileData.absent, FileData.good [⟨"Ann", "a@x.com", "5551234567"⟩]⟩).target
      = FileData.truncated ∧
    ((⟨FileData.absent, FileData.good [⟨"Ann", "a@x.com", "5551234567"⟩]⟩ :
        FS (List Row)).target.isParsable = true) ∧
    (FileData.truncated : FileData (List Row)).isParsable = false := by
  decide

/-- Claim C2 (amended): `saveWorkbook` of the first revision of
`src/server.js` does replace the target atomically — running any
proper prefix of its steps (serialize to the temp path, then rename)
leaves the target file exactly as it was, running all of them leaves
the serialized table, and in every case the target is either the old
content or the new table, never truncated. The `/submit` write loop of
`part_002`, by contrast, writes the target in place (see the
counterexample), so atomicity holds for the temp-and-rename path only. -/
theorem saveWorkbook_atomic (t : List Row) (fs : FS (List Row)) (k : Nat)
    (hk : k ≤ 3) :
    (k < 3 → (runSteps ((saveWorkbookSteps t).take k) fs).target = fs.target)
    ∧ (k = 3 → (runSteps ((saveWorkbookSteps t).take k) fs).target = FileData.good t)
    ∧ ((runSteps ((saveWorkbookSteps t).take k) fs).target = fs.target ∨
       (runSteps ((saveWorkbookSteps t).take k) fs).target = FileData.good t) := by
  interval_cases k <;> simp [runSteps, saveWorkbookSteps]

/-- Witness for `saveWorkbook_atomic`: interrupting just before the
rename (two of three steps run) leaves the previous table in place;
running all three steps installs the new one. -/
theorem saveWorkbook_atomic_witness :
    (runSteps
        ((saveWorkbookSteps ([⟨"Bea", "b@x.com", "5550000000"⟩] : List Row)).take 2)
        ⟨FileData.absent, FileData.good [⟨"Ann", "a@x.com", "5551234567"⟩]⟩).target
      = FileData.good [⟨"Ann", "a@x.com", "5551234567"⟩] ∧
    (runSteps
        ((saveWorkbookSteps ([⟨"Bea", "b@x.com", "5550000000"⟩] : List Row)).take 3)
        ⟨FileData.absent, FileData.good [⟨"Ann", "a@x.com", "5551234567"⟩]⟩).target
      = FileData.good [⟨"Bea", "b@x.com", "5550000000"⟩] := by
  have h2 := (saveWorkbook_atomic [⟨"Bea", "b@x.com", "5550000000"⟩]
    ⟨FileData.absent, FileData.good [⟨"Ann", "a@x.com", "5551234567"⟩]⟩ 2
    (by decide)).1 (by decide)
  have h3 := (saveWorkbook_atomic [⟨"Bea", "b@x.com", "5550000000"⟩]
    ⟨FileData.absent, FileData.good [⟨"Ann", "a@x.com", "5551234567"⟩]⟩ 3
    (by decide)).2.1 rfl
  exact ⟨h2, h3⟩

/-! ## Lemmas about the upload retry loop -/

lemma uploadGo_attempts_le {σ : Type} (clear : σ → σ) (delayOf : Nat → Nat)
    (maxR : Nat) (o : Nat → Bool) :
    ∀ (fuel retries : Nat) (s : σ),
      (uploadGo clear delayOf maxR o fuel retries s).attempts ≤ fuel := by
  intro fuel
  induction fuel with
  | zero => intro retries s; simp [uploadGo]
  | succ n ih =>
    intro retries s
    by_cases ho : o (retries + 1)
    · simp [uploadGo, ho]
    · by_cases hm : retries + 1 = maxR
      · simp only [uploadGo]
        rw [if_neg ho, if_pos hm]
        simp
      · simp only [uploadGo]
        rw [if_neg ho, if_neg hm]
        exact Nat.succ_le_succ (ih (retries + 1) s)

lemma uploadGo_state {σ : Type} (clear : σ → σ) (delayOf : Nat → Nat)
    (maxR : Nat) (o : Nat → Bool) :
    ∀ (fuel retries : Nat) (s : σ),
      ((uploadGo clear delayOf maxR o fuel retries s).ok = true →
        (uploadGo clear delayOf maxR o fuel retries s).state = clear s)
      ∧ ((uploadGo clear delayOf maxR o fuel retries s).ok = false →
        (uploadGo clear delayOf maxR o fuel retries s).state = s) := by
  intro fuel
  induction fuel with
  | zero => intro retries s; simp [uploadGo]
  | succ n ih =>
    intro retries s
    by_cases ho : o (retries + 1)
    · simp [uploadGo, ho]
    · by_cases hm : retries + 1 = maxR
      · simp only [uploadGo]
        rw [if_neg ho, if_pos hm]
        simp
      · simp only [uploadGo]
        rw [if_neg ho, if_neg hm]
        exact ih (retries + 1) s

lemma uploadGo_delays {σ : Type} (clear : σ → σ) (delayOf : Nat → Nat)
    (maxR : Nat) (o : Nat → Bool) :
    ∀ (fuel retries : Nat) (s : σ),
      ∃ n, (uploadGo clear delayOf maxR o fuel retries s).delays =
        (List.range n).map (fun i => delayOf (retries + 1 + i)) := by
  intro fuel
  induction fuel with
  | zero => intro retries s; exact ⟨0, by simp [uploadGo]⟩
  | succ n ih =>
    intro retries s
    by_cases ho : o (retries + 1)
    · exact ⟨0, by simp [uploadGo, ho]⟩
    · by_cases hm : retries + 1 = maxR
      · refine ⟨0, ?_⟩
        simp only [uploadGo]
        rw [if_neg ho, if_pos hm]
        simp
      · obtain ⟨m, hm'⟩ := ih (retries + 1) s
        refine ⟨m + 1, ?_⟩
        simp only [uploadGo]
        rw [if_neg ho, if_neg hm]
        simp only []
        rw [hm', List.range_succ_eq_map, List.map_cons, List.map_map]
        congr 1
        apply List.map_congr_left
        intro i _
        simp only [Function.comp]
        exact congrArg delayOf (by omega)

/-! ## C4 theorems -/

/-- Claim C4: in `part_002`, `localChangesPending` is cleared by
`uploadToGoogleDrive` exactly on success — a call that returns
successfully leaves the flag `false`, a call that throws after
exhausting its retries changes nothing (so a dirty flag stays `true`),
and after such a failure the next periodic sync tick sees the flag,
runs the upload again, and clears the flag as soon as that upload
succeeds. -/
theorem uploadP2_clears_dirty_on_success (o1 o2 : Nat → Bool) (s : P2SyncSt) :
    ((uploadToGoogleDriveP2 o1 s).ok = true →
      (uploadToGoogleDriveP2 o1 s).state.dirty = false)
    ∧ ((uploadToGoogleDriveP2 o1 s).ok = false →
      (uploadToGoogleDriveP2 o1 s).state = s)
    ∧ (s.dirty = true → (uploadToGoogleDriveP2 o1 s).ok = false →
        (uploadToGoogleDriveP2 o1 s).state.dirty = true
        ∧ periodicSyncCycleP2 o2 ((uploadToGoogleDriveP2 o1 s).state)
            = (uploadToGoogleDriveP2 o2 ((uploadToGoogleDriveP2 o1 s).state)).state
        ∧ ((uploadToGoogleDriveP2 o2 ((uploadToGoogleDriveP2 o1 s).state)).ok = true →
            (periodicSyncCycleP2 o2 ((uploadToGoogleDriveP2 o1 s).state)).dirty
              = false)) := by
  have h1 := uploadGo_state (fun s : P2SyncSt => { s with dirty := false })
    (fun _ => 5000) 3 o1 3 0 s
  refine ⟨fun hok => ?_, h1.2, fun hdirty hfail => ?_⟩
  · rw [uploadToGoogleDriveP2, h1.1 hok]
  · have hst : (uploadToGoogleDriveP2 o1 s).state = s := h1.2 hfail
    have hd : (uploadToGoogleDriveP2 o1 s).state.dirty = true := by
      rw [hst, hdirty]
    have h2 := uploadGo_state (fun s : P2SyncSt => { s with dirty := false })
      (fun _ => 5000) 3 o2 3 0 ((uploadToGoogleDriveP2 o1 s).state)
    refine ⟨hd, by simp [periodicSyncCycleP2, hd], fun hok2 => ?_⟩
    rw [periodicSyncCycleP2, if_pos hd]
    rw [uploadToGoogleDriveP2, h2.1 hok2]

/-- Witness for `uploadP2_clears_dirty_on_success`: all three attempts
of the immediate upload fail, the flag stays set, and a periodic cycle
whose upload succeeds on its first attempt clears it. -/
theorem uploadP2_clears_dirty_on_success_witness :
    (uploadToGoogleDriveP2 (fun _ => false) ⟨true, none⟩).state.dirty = true
    ∧ periodicSyncCycleP2 (fun _ => true)
        ((uploadToGoogleDriveP2 (fun _ => false) ⟨true, none⟩).state)
        = (uploadToGoogleDriveP2 (fun _ => true)
            ((uploadToGoogleDriveP2 (fun _ => false) ⟨true, none⟩).state)).state
    ∧ ((uploadToGoogleDriveP2 (fun _ => true)
          ((uploadToGoogleDriveP2 (fun _ => false) ⟨true, none⟩).state)).ok = true →
        (periodicSyncCycleP2 (fun _ => true)
          ((uploadToGoogleDriveP2 (fun _ => false) ⟨true, none⟩).state)).dirty
          = false) := by
  have h := (uploadP2_clears_dirty_on_success (fun _ => false) (fun _ => true)
    ⟨true, none⟩).2.2 rfl (by decide)
  exact ⟨h.1, h.2.1, h.2.2⟩

/-! ## C7 theorems -/

/-- Claim C7, counterexample. With every attempt failing,
`uploadToGoogleDrive` of `part_002` makes its three attempts but sleeps
the fixed `delay = 5000` between them: the delays `[5000, 5000]` are
not increasing, contradicting the claimed increasing backoff. -/
theorem uploadP2_fixed_delay_counterexample :
    (uploadToGoogleDriveP2 (fun _ => false) ⟨true, none⟩).attempts = 3 ∧
    (uploadToGoogleDriveP2 (fun _ => false) ⟨true, none⟩).delays = [5000, 5000] ∧
    ¬ List.Chain' (fun a b => a < b)
        (uploadToGoogleDriveP2 (fun _ => false) ⟨true, none⟩).delays := by
  refine ⟨by decide, by decide, ?_⟩
  intro hc
  rw [show (uploadToGoogleDriveP2 (fun _ => false) ⟨true, none⟩).delays
      = [5000, 5000] from by decide] at hc
  simp [List.chain'_cons] at hc

/-- Claim C7 (amended): every upload routine makes at most 3 attempts
and never writes the local Excel file (so after an exhausted failure
the local file still holds the mutation and the whole state is
untouched); the delays between consecutive attempts are strictly
increasing (`1000 * retries`) in `part_001` / `src/server.js`, while
`part_002` sleeps a fixed 5000 ms between attempts. -/
theorem upload_retry_policy (outcomes : Nat → Bool) (s1 : SrvSyncSt)
    (s2 : P2SyncSt) :
    (uploadToGoogleDriveSrv outcomes s1).attempts ≤ 3
    ∧ (uploadToGoogleDriveP2 outcomes s2).attempts ≤ 3
    ∧ List.Chain' (fun a b => a < b) (uploadToGoogleDriveSrv outcomes s1).delays
    ∧ (∀ d ∈ (uploadToGoogleDriveP2 outcomes s2).delays, d = 5000)
    ∧ (uploadToGoogleDriveSrv outcomes s1).state.localFile = s1.localFile
    ∧ (uploadToGoogleDriveP2 outcomes s2).state.localFile = s2.localFile
    ∧ ((uploadToGoogleDriveSrv outcomes s1).ok = false →
        (uploadToGoogleDriveSrv outcomes s1).state = s1)
    ∧ ((uploadToGoogleDriveP2 outcomes s2).ok = false →
        (uploadToGoogleDriveP2 outcomes s2).state = s2) := by
  have hs : ((uploadToGoogleDriveSrv outcomes s1).ok = true →
        (uploadToGoogleDriveSrv outcomes s1).state = { s1 with dirty := false })
      ∧ ((uploadToGoogleDriveSrv outcomes s1).ok = false →
        (uploadToGoogleDriveSrv outcomes s1).state = s1) :=
    uploadGo_state (fun s : SrvSyncSt => { s with dirty := false })
      (fun k => 1000 * k) 3 outcomes 3 0 s1
  have hp : ((uploadToGoogleDriveP2 outcomes s2).ok = true →
        (uploadToGoogleDriveP2 outcomes s2).state = { s2 with dirty := false })
      ∧ ((uploadToGoogleDriveP2 outcomes s2).ok = false →
        (uploadToGoogleDriveP2 outcomes s2).state = s2) :=
    uploadGo_state (fun s : P2SyncSt => { s with dirty := false })
      (fun _ => 5000) 3 outcomes 3 0 s2
  refine ⟨uploadGo_attempts_le _ _ _ _ 3 0 s1,
    uploadGo_attempts_le _ _ _ _ 3 0 s2, ?_, ?_, ?_, ?_, hs.2, hp.2⟩
  · obtain ⟨n, hn⟩ := uploadGo_delays
      (fun s : SrvSyncSt => { s with dirty := false }) (fun k => 1000 * k) 3
      outcomes 3 0 s1
    rw [uploadToGoogleDriveSrv, hn, List.chain'_map]
    exact ((List.pairwise_lt_range n).imp (fun h => by omega)).chain'
  · obtain ⟨n, hn⟩ := uploadGo_delays
      (fun s : P2SyncSt => { s with dirty := false }) (fun _ => 5000) 3
      outcomes 3 0 s2
    rw [uploadToGoogleDriveP2, hn]
    intro d hd
    obtain ⟨i, -, hi⟩ := List.mem_map.mp hd
    exact hi.symm
  · rcases hok : (uploadToGoogleDriveSrv outcomes s1).ok with _ | _
    · rw [hs.2 hok]
    · rw [hs.1 hok]
  · rcases hok : (uploadToGoogleDriveP2 outcomes s2).ok with _ | _
    · rw [hp.2 hok]
    · rw [hp.1 hok]

/-- Witness for `upload_retry_policy` at an all-failing outcome
sequence: three attempts, increasing delays `[1000, 2000]` for the
`server.js`/`part_001` loop, and the state — local file included —
unchanged. -/
theorem upload_retry_policy_witness :
    (uploadToGoogleDriveSrv (fun _ => false) ⟨true, some ⟨some ⟨["Name"], []⟩⟩⟩).delays
      = [1000, 2000]
    ∧ (uploadToGoogleDriveSrv (fun _ => false) ⟨true, some ⟨some ⟨["Name"], []⟩⟩⟩).state
      = ⟨true, some ⟨some ⟨["Name"], []⟩⟩⟩
    ∧ (uploadToGoogleDriveP2 (fun _ => false) ⟨true, none⟩).state = ⟨true, none⟩ := by
  have h := upload_retry_policy (fun _ => false) ⟨true, some ⟨some ⟨["Name"], []⟩⟩⟩
    ⟨true, none⟩
  exact ⟨by decide, h.2.2.2.2.2.2.1 (by decide), h.2.2.2.2.2.2.2 (by decide)⟩

/-! ## C8 theorems -/

/-- Claim C8, counterexample. In `part_002`, a submission whose local
write succeeded but whose immediate upload fails all three attempts
still gets a plain success response — but no warning is attached (the
`catch` only logs), contrary to the claim. -/
theorem submitP2_no_warning_counterexample :
    (uploadToGoogleDriveP2 (fun _ => false) ⟨true, none⟩).ok = false ∧
    (submitUploadPhaseP2 (fun _ => false) ⟨false, none⟩).1.status = 200 ∧
    (submitUploadPhaseP2 (fun _ => false) ⟨false, none⟩).1.success = true ∧
    (submitUploadPhaseP2 (fun _ => false) ⟨false, none⟩).1.warning = none := by
  decide

/-- Claim C8 (amended): when the upload after a successful local write
fails all retries, both revisions still answer success (status 200,
`success = true`) and keep the dirty flag set for the periodic retry;
`src/server.js` attaches a soft warning to the response, while
`part_002` returns the success response with no warning. -/
theorem submit_upload_fallback (outcomes : Nat → Bool) (sS : SrvSyncSt)
    (sP : P2SyncSt)
    (hS : (uploadToGoogleDriveSrv outcomes { sS with dirty := true }).ok = false)
    (hP : (uploadToGoogleDriveP2 outcomes { sP with dirty := true }).ok = false) :
    (submitUploadPhaseSrv outcomes sS).1.status = 200
    ∧ (submitUploadPhaseSrv outcomes sS).1.success = true
    ∧ (submitUploadPhaseSrv outcomes sS).1.warning.isSome = true
    ∧ (submitUploadPhaseSrv outcomes sS).2.dirty = true
    ∧ (submitUploadPhaseP2 outcomes sP).1.status = 200
    ∧ (submitUploadPhaseP2 outcomes sP).1.success = true
    ∧ (submitUploadPhaseP2 outcomes sP).1.warning = none
    ∧ (submitUploadPhaseP2 outcomes sP).2.dirty = true := by
  have hstS : (uploadToGoogleDriveSrv outcomes { sS with dirty := true }).state
      = { sS with dirty := true } :=
    (uploadGo_state (fun s : SrvSyncSt => { s with dirty := false })
      (fun k => 1000 * k) 3 outcomes 3 0 { sS with dirty := true }).2 hS
  have hstP : (uploadToGoogleDriveP2 outcomes { sP with dirty := true }).state
      = { sP with dirty := true } :=
    (uploadGo_state (fun s : P2SyncSt => { s with dirty := false })
      (fun _ => 5000) 3 outcomes 3 0 { sP with dirty := true }).2 hP
  have hsndS : (submitUploadPhaseSrv outcomes sS).2
      = (uploadToGoogleDriveSrv outcomes { sS with dirty := true }).state := by
    simp [submitUploadPhaseSrv, hS]
  have hsndP : (submitUploadPhaseP2 outcomes sP).2
      = (uploadToGoogleDriveP2 outcomes { sP with dirty := true }).state := rfl
  refine ⟨?_, ?_, ?_, ?_, rfl, rfl, rfl, ?_⟩
  · simp [submitUploadPhaseSrv, hS]
  · simp [submitUploadPhaseSrv, hS]
  · simp [submitUploadPhaseSrv, hS]
  · rw [hsndS, hstS]
  · rw [hsndP, hstP]

/-- Witness for `submit_upload_fallback` at an all-failing outcome
sequence and concrete states. -/
theorem submit_upload_fallback_witness :
    (submitUploadPhaseSrv (fun _ => false) ⟨false, none⟩).1.warning.isSome = true
    ∧ (submitUploadPhaseSrv (fun _ => false) ⟨false, none⟩).1.success = true
    ∧ (submitUploadPhaseP2 (fun _ => false) ⟨false, none⟩).1.warning = none
    ∧ (submitUploadPhaseP2 (fun _ => false) ⟨false, none⟩).2.dirty = true := by
  have h := submit_upload_fallback (fun _ => false) ⟨false, none⟩ ⟨false, none⟩
    (by decide) (by decide)
  exact ⟨h.2.2.1, h.2.1, h.2.2.2.2.2.2.1, h.2.2.2.2.2.2.2⟩

/-! ## C5 theorems -/

/-- Claim C5: when the dirty flag is set and no forced sync was
requested, `downloadFromGoogleDrive` is skipped entirely — it returns
without running and the state (local file included) is untouched — and
it proceeds whenever the flag is clear or a forced sync is requested.
This holds for the `part_002` revision (with its `forceSync`
parameter) and for the `src/server.js` revision (which has no force
option and skips whenever the flag is set). -/
theorem download_skipped_when_dirty (force : Bool) (env : DlEnvP2)
    (envS : DlEnvSrv) (s : P2SyncSt) (t : SrvSyncSt) :
    (s.dirty = true → force = false →
      downloadFromGoogleDriveP2 force env s = (false, s))
    ∧ (s.dirty = false ∨ force = true →
      (downloadFromGoogleDriveP2 force env s).1 = true)
    ∧ (t.dirty = true → downloadFromGoogleDriveSrv envS t = (false, t))
    ∧ (t.dirty = false → (downloadFromGoogleDriveSrv envS t).1 = true) := by
  refine ⟨fun hd hf => by simp [downloadFromGoogleDriveP2, hd, hf], ?_, ?_, ?_⟩
  · intro h
    have hguard : (s.dirty && !force) = false := by
      rcases h with h | h <;> simp [h]
    rw [downloadFromGoogleDriveP2]
    rw [hguard]
    rcases env.throws with _ | _ <;> rcases henv : env.remote with _ | wb <;>
      simp [henv] <;> split <;> simp
  · intro hd
    simp [downloadFromGoogleDriveSrv, hd]
  · intro hd
    rw [downloadFromGoogleDriveSrv]
    rw [if_neg (by simp [hd])]
    rcases envS.throws with _ | _ <;> rcases henv : envS.remote with _ | wb <;>
      simp [henv] <;> split <;> simp

/-- Witness for `download_skipped_when_dirty`: a dirty, unforced
`part_002` state is returned untouched, and a dirty `server.js` state
likewise. -/
theorem download_skipped_when_dirty_witness :
    downloadFromGoogleDriveP2 false ⟨false, none⟩ ⟨true, some initializeExcelP2⟩
      = (false, ⟨true, some initializeExcelP2⟩)
    ∧ downloadFromGoogleDriveSrv ⟨false, none⟩ ⟨true, some ⟨some ⟨["Name"], []⟩⟩⟩
      = (false, ⟨true, some ⟨some ⟨["Name"], []⟩⟩⟩) := by
  have h := download_skipped_when_dirty false ⟨false, none⟩ ⟨false, none⟩
    ⟨true, some initializeExcelP2⟩ ⟨true, some ⟨some ⟨["Name"], []⟩⟩⟩
  exact ⟨h.1 rfl rfl, h.2.2.1 rfl⟩

/-! ## C9 theorems -/

/-- Claim C9: whenever the `part_002` `downloadFromGoogleDrive` is not
skipped by the dirty guard and runs to completion, it leaves
`localChangesPending = false` — on the normal paths and on the
error-recovery path, which in addition replaces the local file with a
freshly initialized empty workbook. In particular a forced download
with the dirty flag set ends with the flag clear although nothing was
uploaded. -/
theorem downloadP2_completion_clears_dirty (force : Bool) (env : DlEnvP2)
    (s : P2SyncSt) (h : s.dirty = false ∨ force = true) :
    (downloadFromGoogleDriveP2 force env s).1 = true
    ∧ (downloadFromGoogleDriveP2 force env s).2.dirty = false
    ∧ (env.throws = true →
        (downloadFromGoogleDriveP2 force env s).2.localFile
          = some initializeExcelP2) := by
  have hguard : (s.dirty && !force) = false := by
    rcases h with h | h <;> simp [h]
  refine ⟨?_, ?_, ?_⟩
  · rw [downloadFromGoogleDriveP2, hguard]
    rcases env.throws with _ | _ <;> rcases henv : env.remote with _ | wb <;>
      simp [henv] <;> split <;> simp
  · rw [downloadFromGoogleDriveP2, hguard]
    rcases env.throws with _ | _ <;> rcases henv : env.remote with _ | wb <;>
      simp [henv] <;> split <;> simp
  · intro ht
    rw [downloadFromGoogleDriveP2, hguard]
    simp [ht]

/-- Witness for `downloadP2_completion_clears_dirty`: a forced download
over a dirty state whose Drive call throws ends with the dirty flag
clear and the local file replaced by the fresh empty workbook. -/
theorem downloadP2_completion_clears_dirty_witness :
    (downloadFromGoogleDriveP2 true ⟨true, none⟩ ⟨true, none⟩).1 = true
    ∧ (downloadFromGoogleDriveP2 true ⟨true, none⟩ ⟨true, none⟩).2.dirty = false
    ∧ (downloadFromGoogleDriveP2 true ⟨true, none⟩ ⟨true, none⟩).2.localFile
        = some initializeExcelP2 := by
  have h := downloadP2_completion_clears_dirty true ⟨true, none⟩ ⟨true, none⟩
    (Or.inr rfl)
  exact ⟨h.1, h.2.1, h.2.2 rfl⟩

end Promo
